import Mathlib

/-!
Shallow embedding of the apartment reservation manager (`src/app.py`),
a small Flask application with one persisted table of reservations,
per-session access flags, and a handful of request handlers.

Modelling conventions:
* A calendar date (`datetime.date`) is a `PyDate` record; Python compares
  dates lexicographically on (year, month, day).
* The persisted table is a `List Reservation`; a commit is the only point
  at which the table changes (uncommitted in-place ORM mutations are
  rolled back at request teardown and so never reach the stored table).
* The Flask session holds the two flags `admin_logged_in` and
  `readonly_mode`; `session.pop` of a flag is modelled as setting it to
  `false` (absence and falsity are indistinguishable to `session.get`).
* Form input (`request.form`) is a record of `Option String` fields:
  `none` models an absent key (bracket access raises `KeyError`, caught
  by the handler's `except` branch).
* `datetime.strptime(s, ...)` and `int(s)` are Python library calls,
  modelled by `parseDate` and `parseInt`; failure (`none`) models the
  raised exception.
* Responses: a redirect carries the Flask endpoint name and, for the
  edit endpoint, the id baked into the URL; rendered templates carry the
  view-model passed to `render_template`; `jsonify` carries the list of
  dictionaries.  Flash notices are (message, category) pairs; the
  dynamic `str(e)` suffix of exception notices is abstracted away.
-/

namespace App

/-- A Python `datetime.date` value (year, month, day). -/
structure PyDate where
  year : Nat
  month : Nat
  day : Nat
deriving DecidableEq, Repr

/-- Python date comparison `a <= b`: lexicographic on (year, month, day). -/
def PyDate.le (a b : PyDate) : Bool :=
  decide (a.year < b.year ∨ (a.year = b.year ∧
    (a.month < b.month ∨ (a.month = b.month ∧ a.day ≤ b.day))))

/-- Decimal digits folded to a `Nat` (helper for the parsing models). -/
def digitsToNat (cs : List Char) : Nat :=
  cs.foldl (fun a c => a * 10 + (c.toNat - 48)) 0

/-- A nonempty list of decimal digit characters. -/
def allDigits (cs : List Char) : Bool :=
  !cs.isEmpty && cs.all (·.isDigit)

/-- Models Python `int(s)` on a submitted form string: an optional sign
followed by decimal digits; anything else raises `ValueError` (`none`). -/
def parseInt (s : String) : Option Int :=
  match s.data with
  | '-' :: rest => if allDigits rest then some (-(digitsToNat rest : Int)) else none
  | '+' :: rest => if allDigits rest then some ((digitsToNat rest : Int)) else none
  | cs => if allDigits cs then some ((digitsToNat cs : Int)) else none

/-- Length of a month in the proleptic Gregorian calendar used by
`datetime`. -/
def daysInMonth (y m : Nat) : Nat :=
  if m = 2 then
    (if (y % 4 = 0 && y % 100 ≠ 0) || y % 400 = 0 then 29 else 28)
  else if m = 4 || m = 6 || m = 9 || m = 11 then 30 else 31

/-- Split a character list into the groups separated by dashes
(the semantics of `split` on the separator "-"). -/
def splitDash (cs : List Char) : List (List Char) :=
  match cs with
  | [] => [[]]
  | c :: rest =>
    if c = '-' then [] :: splitDash rest
    else
      match splitDash rest with
      | [] => [[c]]
      | g :: gs => (c :: g) :: gs

/-- Models `datetime.strptime(s, yyyy-mm-dd).date()`: three dash-separated
digit groups forming a valid calendar date; an invalid string raises
`ValueError` (`none`). -/
def parseDate (s : String) : Option PyDate :=
  match splitDash s.data with
  | [ys, ms, ds] =>
    if allDigits ys && allDigits ms && allDigits ds then
      let y := digitsToNat ys
      let m := digitsToNat ms
      let d := digitsToNat ds
      if 1 ≤ y && y ≤ 9999 && 1 ≤ m && m ≤ 12 && 1 ≤ d && d ≤ daysInMonth y m then
        some ⟨y, m, d⟩
      else none
    else none
  | _ => none

/-- Zero-pad to two digits, as `date.isoformat` does for month and day. -/
def pad2 (n : Nat) : String :=
  if n < 10 then "0" ++ toString n else toString n

/-- Zero-pad to four digits, as `date.isoformat` does for the year. -/
def pad4 (n : Nat) : String :=
  if n < 10 then "000" ++ toString n
  else if n < 100 then "00" ++ toString n
  else if n < 1000 then "0" ++ toString n
  else toString n

/-- Python `date.isoformat()`: the ISO-8601 rendering `YYYY-MM-DD`. -/
def PyDate.isoformat (d : PyDate) : String :=
  pad4 d.year ++ "-" ++ pad2 d.month ++ "-" ++ pad2 d.day

/-- One row of the `reservation` table (class `Reservation` in
`src/app.py`).  `created_at` is the creation timestamp, kept abstract as
a `Nat`. -/
structure Reservation where
  id : Nat
  guest_name : String
  platform : String
  check_in : PyDate
  check_out : PyDate
  adults : Int
  children : Int
  special_requests : String
  notes : String
  created_at : Nat
deriving DecidableEq, Repr

/-- The dictionary produced by `Reservation.to_dict` (note: it omits
`created_at`); `check_in` and `check_out` are rendered as strings. -/
structure ResDict where
  id : Nat
  guest_name : String
  platform : String
  check_in : String
  check_out : String
  adults : Int
  children : Int
  special_requests : String
  notes : String
deriving DecidableEq, Repr

/-- `Reservation.to_dict` from `src/app.py`. -/
def Reservation.to_dict (r : Reservation) : ResDict :=
  ⟨r.id, r.guest_name, r.platform, r.check_in.isoformat, r.check_out.isoformat,
    r.adults, r.children, r.special_requests, r.notes⟩

/-- The two session flags.  `session.get` of an absent key is falsy, so a
flag's absence is modelled as `false`. -/
structure Sess where
  admin_logged_in : Bool
  readonly_mode : Bool
deriving DecidableEq, Repr

/-- A flash notice: (message, category). -/
abbrev Flash := String × String

/-- The persisted reservation table. -/
abbrev Table := List Reservation

/-- HTTP method of a request to a GET/POST route. -/
inductive Method where
  | GET
  | POST
deriving DecidableEq, Repr

/-- The response a handler produces: a redirect (endpoint name plus the
id embedded in the URL for the edit endpoint), a rendered template with
its view-model, a JSON list, or a 404. -/
inductive Response where
  | redirect (endpoint : String) (rid : Option Nat)
  | render (template : String)
  | renderEdit (template : String) (r : Reservation)
  | renderList (template : String) (reservations : List Reservation)
      (is_readonly : Bool) (is_admin : Bool) (today : PyDate)
  | json (rows : List ResDict)
  | notFound
deriving DecidableEq, Repr

/-- What a request handler returns: the session after the request, the
flash notices emitted, and the response. -/
structure HResult where
  sess : Sess
  flashes : List Flash
  response : Response
deriving DecidableEq, Repr

/-- The submitted form (`request.form`): each field is `none` when the
key is absent.  Date and integer fields hold the raw submitted strings. -/
structure Form where
  guest_name : Option String
  platform : Option String
  check_in : Option String
  check_out : Option String
  adults : Option String
  children : Option String
  special_requests : Option String
  notes : Option String
  password : Option String
deriving DecidableEq, Repr

/-- Next primary key assigned by the storage layer on insert
(SQLite rowid behaviour: one more than the largest existing id). -/
def nextId (t : Table) : Nat :=
  (t.map Reservation.id).foldr max 0 + 1

/-- The `require_admin` decorator: blocks (with notice and redirect to
the admin-login page) unless `admin_logged_in` is set. -/
def require_admin (s : Sess) : Option (List Flash × Response) :=
  if !s.admin_logged_in then
    some ([("Please login as admin to access this page", "error")],
      .redirect "admin_login" none)
  else none

/-- The `check_readonly` decorator: blocks (with notice and redirect to
the listing page) when `readonly_mode` is set. -/
def check_readonly (s : Sess) : Option (List Flash × Response) :=
  if s.readonly_mode then
    some ([("You are in read-only mode. You cannot modify reservations.", "error")],
      .redirect "index" none)
  else none

/-- Handler for `/admin-login` (GET/POST).  `secret` is the configured
`ADMIN_PASSWORD` (environment variable with a hardcoded fallback).  An
already-admin session is redirected to the listing at once; on POST the
submitted password is compared to the secret in plaintext; a match sets
`admin_logged_in` and pops `readonly_mode`. -/
def admin_login (secret : String) (s : Sess) (m : Method) (f : Form) : HResult :=
  if s.admin_logged_in then
    ⟨s, [], .redirect "index" none⟩
  else
    match m with
    | .POST =>
      if f.password = some secret then
        ⟨⟨true, false⟩, [("Logged in as Admin", "success")], .redirect "index" none⟩
      else
        ⟨s, [("Invalid admin password", "error")], .render "admin_login.html"⟩
    | .GET => ⟨s, [], .render "admin_login.html"⟩

/-- Handler for `/admin-logout`: pops `admin_logged_in` only. -/
def admin_logout (s : Sess) : HResult :=
  ⟨⟨false, s.readonly_mode⟩, [("Logged out from admin mode", "success")],
    .redirect "admin_login" none⟩

/-- Handler for `/readonly`: sets `readonly_mode`, pops `admin_logged_in`. -/
def readonly_access (_s : Sess) : HResult :=
  ⟨⟨false, true⟩, [("Viewing in read-only mode", "success")],
    .redirect "index" none⟩

/-- Handler for `/exit-readonly`: pops `readonly_mode` only. -/
def exit_readonly (s : Sess) : HResult :=
  ⟨⟨s.admin_logged_in, false⟩, [("Exited read-only mode", "success")],
    .redirect "login_select" none⟩

/-- The listing query: all reservations ordered by `check_in` ascending. -/
def sortByCheckIn (t : Table) : List Reservation :=
  t.mergeSort (fun a b => PyDate.le a.check_in b.check_in)

/-- Handler for `/` (listing): redirects anonymous sessions to the mode
chooser, otherwise renders the ordered list with the two mode flags and
today's date. -/
def index (s : Sess) (t : Table) (today : PyDate) : HResult :=
  if !s.admin_logged_in && !s.readonly_mode then
    ⟨s, [], .redirect "login_select" none⟩
  else
    ⟨s, [], .renderList "index.html" (sortByCheckIn t)
      s.readonly_mode s.admin_logged_in today⟩

/-- Handler for `/login-select` (mode chooser). -/
def login_select (s : Sess) : HResult :=
  if s.admin_logged_in || s.readonly_mode then
    ⟨s, [], .redirect "index" none⟩
  else
    ⟨s, [], .render "login_select.html"⟩

/-- The `Reservation(...)` construction in `add_reservation`: reads the
required form keys, parses the two dates and the two occupant counts
(any failure raises, landing in the `except` branch, modelled by
`none`), and fills the optional text fields with `form.get(key, '')`. -/
def buildReservation (f : Form) (nid : Nat) (now : Nat) : Option Reservation := do
  let g ← f.guest_name
  let p ← f.platform
  let ciStr ← f.check_in
  let ci ← parseDate ciStr
  let coStr ← f.check_out
  let co ← parseDate coStr
  let aStr ← f.adults
  let a ← parseInt aStr
  let cStr ← f.children
  let c ← parseInt cStr
  some ⟨nid, g, p, ci, co, a, c,
    f.special_requests.getD "", f.notes.getD "", now⟩

/-- Inner body of `add_reservation` (after the decorators).  `now` is
the server clock used for `created_at`. -/
def add_reservation (s : Sess) (t : Table) (m : Method) (f : Form) (now : Nat) :
    Table × HResult :=
  match m with
  | .POST =>
    match buildReservation f (nextId t) now with
    | some r =>
      if PyDate.le r.check_out r.check_in then
        (t, ⟨s, [("Check-out date must be after check-in date!", "error")],
          .redirect "add_reservation" none⟩)
      else
        (t ++ [r], ⟨s, [("Reservation added successfully!", "success")],
          .redirect "index" none⟩)
    | none =>
      (t, ⟨s, [("Error adding reservation: ", "error")],
        .redirect "add_reservation" none⟩)
  | .GET => (t, ⟨s, [], .render "add_reservation.html"⟩)

/-- The route `/add` with its two decorators, applied in source order:
`require_admin` outermost, then `check_readonly`, then the handler. -/
def add_route (s : Sess) (t : Table) (m : Method) (f : Form) (now : Nat) :
    Table × HResult :=
  match require_admin s with
  | some (fl, r) => (t, ⟨s, fl, r⟩)
  | none =>
    match check_readonly s with
    | some (fl, r) => (t, ⟨s, fl, r⟩)
    | none => add_reservation s t m f now

/-- The in-place field overwrite in `edit_reservation`: every mutable
field is replaced from the form (id and `created_at` are untouched);
a missing key or failed parse raises, landing in the `except` branch
(`none`). -/
def updateFields (r : Reservation) (f : Form) : Option Reservation := do
  let g ← f.guest_name
  let p ← f.platform
  let ciStr ← f.check_in
  let ci ← parseDate ciStr
  let coStr ← f.check_out
  let co ← parseDate coStr
  let aStr ← f.adults
  let a ← parseInt aStr
  let cStr ← f.children
  let c ← parseInt cStr
  some ⟨r.id, g, p, ci, co, a, c,
    f.special_requests.getD "", f.notes.getD "", r.created_at⟩

/-- Replace the row with the given id (the effect of `db.session.commit()`
after mutating the fetched ORM object). -/
def replaceById (t : Table) (rid : Nat) (r : Reservation) : Table :=
  t.map (fun x => if x.id = rid then r else x)

/-- Inner body of `edit_reservation` (after the decorators).
`get_or_404` is the lookup; on a validation or parsing failure nothing
is committed, so the stored table is unchanged (the uncommitted in-place
mutations are rolled back at request teardown). -/
def edit_reservation (s : Sess) (t : Table) (rid : Nat) (m : Method) (f : Form) :
    Table × HResult :=
  match t.find? (fun x => x.id = rid) with
  | none => (t, ⟨s, [], .notFound⟩)
  | some r =>
    match m with
    | .POST =>
      match updateFields r f with
      | some r2 =>
        if PyDate.le r2.check_out r2.check_in then
          (t, ⟨s, [("Check-out date must be after check-in date!", "error")],
            .redirect "edit_reservation" (some rid)⟩)
        else
          (replaceById t rid r2,
            ⟨s, [("Reservation updated successfully!", "success")],
              .redirect "index" none⟩)
      | none =>
        (t, ⟨s, [("Error updating reservation: ", "error")],
          .redirect "edit_reservation" (some rid)⟩)
    | .GET => (t, ⟨s, [], .renderEdit "edit_reservation.html" r⟩)

/-- The route `/edit/<id>` with its two decorators in source order. -/
def edit_route (s : Sess) (t : Table) (rid : Nat) (m : Method) (f : Form) :
    Table × HResult :=
  match require_admin s with
  | some (fl, r) => (t, ⟨s, fl, r⟩)
  | none =>
    match check_readonly s with
    | some (fl, r) => (t, ⟨s, fl, r⟩)
    | none => edit_reservation s t rid m f

/-- Inner body of `delete_reservation` (after the decorators):
`get_or_404`, then delete and commit, then redirect to the listing. -/
def delete_reservation (s : Sess) (t : Table) (rid : Nat) : Table × HResult :=
  match t.find? (fun x => x.id = rid) with
  | none => (t, ⟨s, [], .notFound⟩)
  | some _ =>
    (t.filter (fun x => x.id ≠ rid),
      ⟨s, [("Reservation deleted successfully!", "success")],
        .redirect "index" none⟩)

/-- The route `/delete/<id>` with its two decorators in source order. -/
def delete_route (s : Sess) (t : Table) (rid : Nat) : Table × HResult :=
  match require_admin s with
  | some (fl, r) => (t, ⟨s, fl, r⟩)
  | none =>
    match check_readonly s with
    | some (fl, r) => (t, ⟨s, fl, r⟩)
    | none => delete_reservation s t rid

/-- Handler for `/api/reservations`: no session check; every stored row
serialised by `to_dict` in storage order. -/
def api_reservations (s : Sess) (t : Table) : HResult :=
  ⟨s, [], .json (t.map Reservation.to_dict)⟩

/-- Handler for `/calendar`: identical access logic and fetch to the
listing, rendering the calendar template. -/
def calendar_view (s : Sess) (t : Table) (today : PyDate) : HResult :=
  if !s.admin_logged_in && !s.readonly_mode then
    ⟨s, [], .redirect "login_select" none⟩
  else
    ⟨s, [], .renderList "calendar.html" (sortByCheckIn t)
      s.readonly_mode s.admin_logged_in today⟩

/-- Session states reachable from a fresh (anonymous) session through
the requests that modify the session; all other handlers leave the
session unchanged. -/
inductive Reachable : Sess → Prop where
  | init : Reachable ⟨false, false⟩
  | login (secret : String) (m : Method) (f : Form) {s : Sess} :
      Reachable s → Reachable (admin_login secret s m f).sess
  | logout {s : Sess} : Reachable s → Reachable (admin_logout s).sess
  | readonly {s : Sess} : Reachable s → Reachable (readonly_access s).sess
  | exitReadonly {s : Sess} : Reachable s → Reachable (exit_readonly s).sess

/-- The mutual-exclusion invariant on the two session flags. -/
def SessInv (s : Sess) : Prop :=
  ¬(s.admin_logged_in = true ∧ s.readonly_mode = true)

/-- Sample stored reservation used in concrete instantiations. -/
def sampleRes : Reservation :=
  ⟨1, "A. Smith", "Airbnb", ⟨2024, 3, 1⟩, ⟨2024, 3, 5⟩, 2, 0, "", "", 0⟩

/-- A second sample reservation with an earlier check-in. -/
def sampleRes2 : Reservation :=
  ⟨2, "B. Jones", "Direct", ⟨2024, 2, 1⟩, ⟨2024, 2, 3⟩, 1, 0, "", "", 0⟩

/-- A submitted form whose dates are reversed (check-out before check-in). -/
def badDatesForm : Form :=
  ⟨some "A. Smith", some "Airbnb", some "2024-03-05", some "2024-03-01",
    some "2", some "0", none, none, none⟩

/-- The candidate record built from `badDatesForm` over an empty table. -/
def badDatesRes : Reservation :=
  ⟨1, "A. Smith", "Airbnb", ⟨2024, 3, 5⟩, ⟨2024, 3, 1⟩, 2, 0, "", "", 0⟩

/-- The record `updateFields sampleRes badDatesForm` produces. -/
def badDatesRes1 : Reservation :=
  ⟨1, "A. Smith", "Airbnb", ⟨2024, 3, 5⟩, ⟨2024, 3, 1⟩, 2, 0, "", "", 0⟩

/-- A form with every key absent. -/
def emptyForm : Form :=
  ⟨none, none, none, none, none, none, none, none, none⟩

/-- A valid-date form whose guest name is the empty string. -/
def emptyNameForm : Form :=
  ⟨some "", some "Airbnb", some "2024-03-01", some "2024-03-05",
    some "2", some "0", none, none, none⟩

/-- The record persisted from `emptyNameForm` over an empty table. -/
def emptyNameRes : Reservation :=
  ⟨1, "", "Airbnb", ⟨2024, 3, 1⟩, ⟨2024, 3, 5⟩, 2, 0, "", "", 0⟩

/-- A login form carrying the password "pw". -/
def pwForm : Form :=
  ⟨none, none, none, none, none, none, none, none, some "pw"⟩

lemma pyDateLe_trans (a b c : PyDate)
    (h1 : PyDate.le a b = true) (h2 : PyDate.le b c = true) :
    PyDate.le a c = true := by
  simp only [PyDate.le, decide_eq_true_eq] at h1 h2 ⊢
  omega

lemma pyDateLe_total (a b : PyDate) :
    (PyDate.le a b || PyDate.le b a) = true := by
  simp only [PyDate.le, Bool.or_eq_true, decide_eq_true_eq]
  omega

lemma sortByCheckIn_sorted (t : Table) :
    List.Sorted (fun a b => PyDate.le a.check_in b.check_in = true)
      (sortByCheckIn t) := by
  have h := @List.sorted_mergeSort Reservation
    (fun a b => PyDate.le a.check_in b.check_in)
    (fun _ _ _ h1 h2 => pyDateLe_trans _ _ _ h1 h2)
    (fun _ _ => pyDateLe_total _ _) t
  simpa [sortByCheckIn, List.Sorted] using h

lemma sortByCheckIn_perm (t : Table) : (sortByCheckIn t).Perm t :=
  List.mergeSort_perm t _

lemma reachable_inv (s : Sess) (h : Reachable s) : SessInv s := by
  induction h with
  | init => simp [SessInv]
  | login secret m f hs ih =>
    rename_i s0
    unfold admin_login
    by_cases ha : s0.admin_logged_in = true
    · simpa [ha] using ih
    · cases m with
      | GET => simpa [ha] using ih
      | POST =>
        by_cases hp : f.password = some secret
        · simp [ha, hp, SessInv]
        · simpa [ha, hp] using ih
  | logout hs ih => simp [admin_logout, SessInv]
  | readonly hs ih => simp [readonly_access, SessInv]
  | exitReadonly hs ih => simp [exit_readonly, SessInv]

/-- Claim C1: a create attempt (POST /add, admin and non-read-only
session) whose parsed dates satisfy check_out <= check_in persists
nothing, leaves the stored table unchanged, and redirects back to the
add form with an error notice. -/
theorem C1_add_invalid_dates (s : Sess) (t : Table) (f : Form) (now : Nat)
    (r : Reservation)
    (hadmin : s.admin_logged_in = true) (hro : s.readonly_mode = false)
    (hparse : buildReservation f (nextId t) now = some r)
    (hdates : PyDate.le r.check_out r.check_in = true) :
    (add_route s t .POST f now).1 = t ∧
    (add_route s t .POST f now).2.response = .redirect "add_reservation" none ∧
    (add_route s t .POST f now).2.flashes
      = [("Check-out date must be after check-in date!", "error")] := by
  simp [add_route, require_admin, check_readonly, hadmin, hro,
    add_reservation, hparse, hdates]

/-- Concrete instantiation of C1: an admin session posting reversed
dates over the empty table. -/
theorem C1_witness :
    (add_route ⟨true, false⟩ [] .POST badDatesForm 0).1 = [] ∧
    (add_route ⟨true, false⟩ [] .POST badDatesForm 0).2.response
      = .redirect "add_reservation" none ∧
    (add_route ⟨true, false⟩ [] .POST badDatesForm 0).2.flashes
      = [("Check-out date must be after check-in date!", "error")] :=
  C1_add_invalid_dates ⟨true, false⟩ [] badDatesForm 0 badDatesRes
    rfl rfl (by decide) (by decide)

/-- Claim C2: an update attempt (POST /edit/id, admin and non-read-only
session, id present) that fails parsing or fails the date validation
leaves the stored record with that id unchanged (indeed the whole table
unchanged) and redirects back to the edit form for the same id with a
notice. -/
theorem C2_edit_failure_preserves (s : Sess) (t : Table) (rid : Nat)
    (f : Form) (r : Reservation)
    (hadmin : s.admin_logged_in = true) (hro : s.readonly_mode = false)
    (hfind : t.find? (fun x => x.id = rid) = some r)
    (hfail : updateFields r f = none ∨
      ∃ r2, updateFields r f = some r2 ∧
        PyDate.le r2.check_out r2.check_in = true) :
    (edit_route s t rid .POST f).1 = t ∧
    (edit_route s t rid .POST f).1.find? (fun x => x.id = rid) = some r ∧
    (edit_route s t rid .POST f).2.response
      = .redirect "edit_reservation" (some rid) ∧
    ∃ msg, (edit_route s t rid .POST f).2.flashes = [(msg, "error")] := by
  have hroute : edit_route s t rid .POST f = edit_reservation s t rid .POST f := by
    simp [edit_route, require_admin, check_readonly, hadmin, hro]
  rw [hroute]
  rcases hfail with h2 | ⟨r2, h2, hle⟩
  · simp [edit_reservation, hfind, h2]
  · simp [edit_reservation, hfind, h2, hle]

/-- Concrete instantiation of C2: posting reversed dates to the edit
form of the stored sample reservation. -/
theorem C2_witness :
    (edit_route ⟨true, false⟩ [sampleRes] 1 .POST badDatesForm).1
      = [sampleRes] ∧
    (edit_route ⟨true, false⟩ [sampleRes] 1 .POST badDatesForm).1.find?
      (fun x => x.id = 1) = some sampleRes ∧
    (edit_route ⟨true, false⟩ [sampleRes] 1 .POST badDatesForm).2.response
      = .redirect "edit_reservation" (some 1) ∧
    ∃ msg, (edit_route ⟨true, false⟩ [sampleRes] 1 .POST badDatesForm).2.flashes
      = [(msg, "error")] :=
  C2_edit_failure_preserves ⟨true, false⟩ [sampleRes] 1 badDatesForm sampleRes
    rfl rfl (by decide) (Or.inr ⟨badDatesRes1, by decide, by decide⟩)

/-- Claim C3: every mode-transition request preserves the mutual
exclusion of the two session flags; a successful admin login leaves
readonly_mode clear and entering read-only mode clears admin_logged_in. -/
theorem C3_mode_transitions_exclusive (secret : String) (s : Sess)
    (m : Method) (f : Form) (hinv : SessInv s) :
    SessInv (admin_login secret s m f).sess ∧
    SessInv (admin_logout s).sess ∧
    SessInv (readonly_access s).sess ∧
    SessInv (exit_readonly s).sess ∧
    (f.password = some secret →
      (admin_login secret s .POST f).sess.readonly_mode = false) ∧
    (readonly_access s).sess.admin_logged_in = false := by
  rcases s with ⟨a, ro⟩
  cases a <;> cases ro <;> cases m <;>
    by_cases hp : f.password = some secret <;>
      simp_all [admin_login, admin_logout, readonly_access, exit_readonly, SessInv]

/-- Concrete instantiation of C3 at an anonymous session and a correct
password. -/
theorem C3_witness :
    SessInv (admin_login "pw" ⟨false, false⟩ .POST pwForm).sess ∧
    SessInv (admin_logout ⟨false, false⟩).sess ∧
    SessInv (readonly_access ⟨false, false⟩).sess ∧
    SessInv (exit_readonly ⟨false, false⟩).sess ∧
    (pwForm.password = some "pw" →
      (admin_login "pw" ⟨false, false⟩ .POST pwForm).sess.readonly_mode = false) ∧
    (readonly_access ⟨false, false⟩).sess.admin_logged_in = false :=
  C3_mode_transitions_exclusive "pw" ⟨false, false⟩ .POST pwForm
    (by simp [SessInv])

/-- Claim C4: an anonymous session (neither flag set) requesting /,
/calendar, /add, /edit/id or /delete/id always gets a redirect to the
mode-selection page or the admin-login page — never a rendered data view
or mutation form — and the stored table is never mutated. -/
theorem C4_anonymous_always_redirected (s : Sess) (t : Table)
    (today : PyDate) (rid : Nat) (m : Method) (f : Form) (now : Nat)
    (hadmin : s.admin_logged_in = false) (hro : s.readonly_mode = false) :
    index s t today = ⟨s, [], .redirect "login_select" none⟩ ∧
    calendar_view s t today = ⟨s, [], .redirect "login_select" none⟩ ∧
    (add_route s t m f now).1 = t ∧
    (add_route s t m f now).2.response = .redirect "admin_login" none ∧
    (edit_route s t rid m f).1 = t ∧
    (edit_route s t rid m f).2.response = .redirect "admin_login" none ∧
    (delete_route s t rid).1 = t ∧
    (delete_route s t rid).2.response = .redirect "admin_login" none := by
  simp [index, calendar_view, add_route, edit_route, delete_route,
    require_admin, hadmin, hro]

/-- Concrete instantiation of C4: an anonymous session over a one-row
table. -/
theorem C4_witness :
    index ⟨false, false⟩ [sampleRes] ⟨2024, 3, 2⟩
      = ⟨⟨false, false⟩, [], .redirect "login_select" none⟩ ∧
    calendar_view ⟨false, false⟩ [sampleRes] ⟨2024, 3, 2⟩
      = ⟨⟨false, false⟩, [], .redirect "login_select" none⟩ ∧
    (add_route ⟨false, false⟩ [sampleRes] .POST emptyForm 0).1 = [sampleRes] ∧
    (add_route ⟨false, false⟩ [sampleRes] .POST emptyForm 0).2.response
      = .redirect "admin_login" none ∧
    (edit_route ⟨false, false⟩ [sampleRes] 1 .POST emptyForm).1 = [sampleRes] ∧
    (edit_route ⟨false, false⟩ [sampleRes] 1 .POST emptyForm).2.response
      = .redirect "admin_login" none ∧
    (delete_route ⟨false, false⟩ [sampleRes] 1).1 = [sampleRes] ∧
    (delete_route ⟨false, false⟩ [sampleRes] 1).2.response
      = .redirect "admin_login" none :=
  C4_anonymous_always_redirected ⟨false, false⟩ [sampleRes] ⟨2024, 3, 2⟩
    1 .POST emptyForm 0 rfl rfl

/-- Counterexample to claim C5 as stated: a read-only session (admin
flag unset, as every reachable read-only session has it) requesting /add
is redirected to the admin-login page, not to the listing page, because
the require_admin decorator runs before check_readonly. -/
theorem C5_counterexample :
    (add_route ⟨false, true⟩ [] .GET emptyForm 0).2.response
      = .redirect "admin_login" none ∧
    (add_route ⟨false, true⟩ [] .GET emptyForm 0).2.response
      ≠ .redirect "index" none := by
  constructor
  · decide
  · decide

/-- Claim C5 amended: a request by a session with readonly_mode set to
/add, /edit/id or /delete/id performs no storage mutation and yields a
redirect; the target is the admin-login page when admin_logged_in is
unset (the admin gate fires first), and the listing page only in the
unreachable state where admin_logged_in is also set. -/
theorem C5_readonly_no_mutation (s : Sess) (t : Table) (rid : Nat)
    (m : Method) (f : Form) (now : Nat) (hro : s.readonly_mode = true) :
    (add_route s t m f now).1 = t ∧
    (edit_route s t rid m f).1 = t ∧
    (delete_route s t rid).1 = t ∧
    (s.admin_logged_in = false →
      (add_route s t m f now).2.response = .redirect "admin_login" none ∧
      (edit_route s t rid m f).2.response = .redirect "admin_login" none ∧
      (delete_route s t rid).2.response = .redirect "admin_login" none) ∧
    (s.admin_logged_in = true →
      (add_route s t m f now).2.response = .redirect "index" none ∧
      (edit_route s t rid m f).2.response = .redirect "index" none ∧
      (delete_route s t rid).2.response = .redirect "index" none) := by
  cases ha : s.admin_logged_in <;>
    simp [add_route, edit_route, delete_route, require_admin, check_readonly,
      ha, hro]

/-- Concrete instantiation of the amended C5: a read-only session over a
one-row table. -/
theorem C5_witness :
    (add_route ⟨false, true⟩ [sampleRes] .POST badDatesForm 0).1
      = [sampleRes] ∧
    (edit_route ⟨false, true⟩ [sampleRes] 1 .POST badDatesForm).1
      = [sampleRes] ∧
    (delete_route ⟨false, true⟩ [sampleRes] 1).1 = [sampleRes] ∧
    ((⟨false, true⟩ : Sess).admin_logged_in = false →
      (add_route ⟨false, true⟩ [sampleRes] .POST badDatesForm 0).2.response
        = .redirect "admin_login" none ∧
      (edit_route ⟨false, true⟩ [sampleRes] 1 .POST badDatesForm).2.response
        = .redirect "admin_login" none ∧
      (delete_route ⟨false, true⟩ [sampleRes] 1).2.response
        = .redirect "admin_login" none) ∧
    ((⟨false, true⟩ : Sess).admin_logged_in = true →
      (add_route ⟨false, true⟩ [sampleRes] .POST badDatesForm 0).2.response
        = .redirect "index" none ∧
      (edit_route ⟨false, true⟩ [sampleRes] 1 .POST badDatesForm).2.response
        = .redirect "index" none ∧
      (delete_route ⟨false, true⟩ [sampleRes] 1).2.response
        = .redirect "index" none) :=
  C5_readonly_no_mutation ⟨false, true⟩ [sampleRes] 1 .POST badDatesForm 0 rfl

/-- Counterexample to claim C6 as stated: an admin create attempt whose
guest_name is the empty string is not rejected — the record is persisted
with an empty guest_name. -/
theorem C6_counterexample :
    (add_route ⟨true, false⟩ [] .POST emptyNameForm 0).1 = [emptyNameRes] ∧
    (add_route ⟨true, false⟩ [] .POST emptyNameForm 0).1.map
      Reservation.guest_name = [""] ∧
    (add_route ⟨true, false⟩ [] .POST emptyNameForm 0).2.response
      = .redirect "index" none := by
  refine ⟨by decide, by decide, by decide⟩

/-- Claim C6 amended: the guest_name and platform keys are required — a
create or update attempt missing either key is rejected before
persistence (the table is unchanged and the create attempt redirects
back to the add form) — but an empty string value for either field is
accepted and can reach storage. -/
theorem C6_missing_required_keys_rejected (s : Sess) (t : Table)
    (rid : Nat) (f : Form) (now : Nat)
    (hmiss : f.guest_name = none ∨ f.platform = none) :
    (add_route s t .POST f now).1 = t ∧
    ((add_route s t .POST f now).2.response = .redirect "add_reservation" none ∨
      (add_route s t .POST f now).2.response = .redirect "admin_login" none ∨
      (add_route s t .POST f now).2.response = .redirect "index" none) ∧
    (edit_route s t rid .POST f).1 = t := by
  have hbuild : buildReservation f (nextId t) now = none := by
    rcases hmiss with h | h
    · simp [buildReservation, h]
    · cases hg : f.guest_name <;> simp [buildReservation, h, hg]
  have hupd : ∀ r : Reservation, updateFields r f = none := by
    intro r
    rcases hmiss with h | h
    · simp [updateFields, h]
    · cases hg : f.guest_name <;> simp [updateFields, h, hg]
  have hedit : (edit_reservation s t rid .POST f).1 = t := by
    cases hf : t.find? (fun x => x.id = rid) with
    | none => simp [edit_reservation, hf]
    | some r => simp [edit_reservation, hf, hupd r]
  refine ⟨?_, ?_, ?_⟩
  · cases ha : s.admin_logged_in <;> cases hro : s.readonly_mode <;>
      simp [add_route, require_admin, check_readonly, ha, hro,
        add_reservation, hbuild]
  · cases ha : s.admin_logged_in <;> cases hro : s.readonly_mode <;>
      simp [add_route, require_admin, check_readonly, ha, hro,
        add_reservation, hbuild]
  · cases ha : s.admin_logged_in <;> cases hro : s.readonly_mode <;>
      simp [edit_route, require_admin, check_readonly, ha, hro, hedit]

/-- Concrete instantiation of the amended C6: an admin session posting a
form with no guest_name key. -/
theorem C6_witness :
    (add_route ⟨true, false⟩ [sampleRes] .POST emptyForm 0).1 = [sampleRes] ∧
    ((add_route ⟨true, false⟩ [sampleRes] .POST emptyForm 0).2.response
        = .redirect "add_reservation" none ∨
      (add_route ⟨true, false⟩ [sampleRes] .POST emptyForm 0).2.response
        = .redirect "admin_login" none ∨
      (add_route ⟨true, false⟩ [sampleRes] .POST emptyForm 0).2.response
        = .redirect "index" none) ∧
    (edit_route ⟨true, false⟩ [sampleRes] 1 .POST emptyForm).1 = [sampleRes] :=
  C6_missing_required_keys_rejected ⟨true, false⟩ [sampleRes] 1 emptyForm 0
    (Or.inl rfl)

/-- Claim C7: the two gates are applied sequentially — require_admin
first, then check_readonly, each testing its own flag — and on every
reachable session state with admin_logged_in set the read-only gate
never blocks: the composed route runs the inner handler. -/
theorem C7_admin_never_blocked (s : Sess) (t : Table) (m : Method)
    (f : Form) (now : Nat) (rid : Nat)
    (hreach : Reachable s) (hadmin : s.admin_logged_in = true) :
    require_admin s = none ∧
    check_readonly s = none ∧
    add_route s t m f now = add_reservation s t m f now ∧
    edit_route s t rid m f = edit_reservation s t rid m f ∧
    delete_route s t rid = delete_reservation s t rid := by
  have hro : s.readonly_mode = false := by
    have hinv := reachable_inv s hreach
    cases hr : s.readonly_mode
    · rfl
    · exact absurd ⟨hadmin, hr⟩ hinv
  simp [require_admin, check_readonly, add_route, edit_route, delete_route,
    hadmin, hro]

/-- Concrete instantiation of C7: the admin session reached by logging
in with the correct password from a fresh session. -/
theorem C7_witness :
    require_admin ⟨true, false⟩ = none ∧
    check_readonly ⟨true, false⟩ = none ∧
    add_route ⟨true, false⟩ [] .GET emptyForm 0
      = add_reservation ⟨true, false⟩ [] .GET emptyForm 0 ∧
    edit_route ⟨true, false⟩ [] 1 .GET emptyForm
      = edit_reservation ⟨true, false⟩ [] 1 .GET emptyForm ∧
    delete_route ⟨true, false⟩ [] 1
      = delete_reservation ⟨true, false⟩ [] 1 :=
  C7_admin_never_blocked ⟨true, false⟩ [] .GET emptyForm 0 1
    (by
      have h := Reachable.login "pw" .POST pwForm Reachable.init
      simpa [admin_login, pwForm] using h)
    rfl

/-- Claim C8: the JSON endpoint ignores session state and returns one
dictionary per stored record — the array length equals the table length
and each element carries check_in and check_out as ISO-8601 strings. -/
theorem C8_api_json_listing (s s2 : Sess) (t : Table) :
    (api_reservations s t).response = (api_reservations s2 t).response ∧
    (api_reservations s t).response = .json (t.map Reservation.to_dict) ∧
    (t.map Reservation.to_dict).length = t.length ∧
    t.map (fun r => (Reservation.to_dict r).check_in)
      = t.map (fun r => r.check_in.isoformat) ∧
    t.map (fun r => (Reservation.to_dict r).check_out)
      = t.map (fun r => r.check_out.isoformat) ∧
    t.map (fun r => (Reservation.to_dict r).id) = t.map Reservation.id := by
  simp [api_reservations, Reservation.to_dict]

/-- Claim C9: for any session with at least one mode flag set, the
listing and calendar handlers render their templates with the full
stored table sorted ascending by check-in date, the two mode flags, and
the current date; the rendered list is a permutation of the table and is
sorted. -/
theorem C9_listing_sorted_viewmodel (s : Sess) (t : Table) (today : PyDate)
    (h : s.admin_logged_in = true ∨ s.readonly_mode = true) :
    index s t today
      = ⟨s, [], .renderList "index.html" (sortByCheckIn t)
          s.readonly_mode s.admin_logged_in today⟩ ∧
    calendar_view s t today
      = ⟨s, [], .renderList "calendar.html" (sortByCheckIn t)
          s.readonly_mode s.admin_logged_in today⟩ ∧
    (sortByCheckIn t).Perm t ∧
    List.Sorted (fun a b => PyDate.le a.check_in b.check_in = true)
      (sortByCheckIn t) := by
  refine ⟨?_, ?_, sortByCheckIn_perm t, sortByCheckIn_sorted t⟩ <;>
    rcases h with h | h <;> simp [index, calendar_view, h]

/-- Concrete instantiation of C9: an admin session over a two-row table
stored out of check-in order. -/
theorem C9_witness :
    index ⟨true, false⟩ [sampleRes, sampleRes2] ⟨2024, 3, 2⟩
      = ⟨⟨true, false⟩, [], .renderList "index.html"
          (sortByCheckIn [sampleRes, sampleRes2]) false true ⟨2024, 3, 2⟩⟩ ∧
    calendar_view ⟨true, false⟩ [sampleRes, sampleRes2] ⟨2024, 3, 2⟩
      = ⟨⟨true, false⟩, [], .renderList "calendar.html"
          (sortByCheckIn [sampleRes, sampleRes2]) false true ⟨2024, 3, 2⟩⟩ ∧
    (sortByCheckIn [sampleRes, sampleRes2]).Perm [sampleRes, sampleRes2] ∧
    List.Sorted (fun a b => PyDate.le a.check_in b.check_in = true)
      (sortByCheckIn [sampleRes, sampleRes2]) :=
  C9_listing_sorted_viewmodel ⟨true, false⟩ [sampleRes, sampleRes2]
    ⟨2024, 3, 2⟩ (Or.inl rfl)

/-- Claim C10: when admin_logged_in is already set, both GET and POST to
/admin-login redirect to the listing with no flash, leaving the session
(hence both flags) unchanged, and the result does not depend on the
submitted password or the configured secret. -/
theorem C10_admin_login_short_circuit (secret secret2 : String) (s : Sess)
    (m m2 : Method) (f f2 : Form) (hadmin : s.admin_logged_in = true) :
    admin_login secret s m f = ⟨s, [], .redirect "index" none⟩ ∧
    admin_login secret s m f = admin_login secret2 s m2 f2 := by
  simp [admin_login, hadmin]

/-- Concrete instantiation of C10: an admin session posting a wrong
password still gets the plain redirect, identical to a GET with no
password. -/
theorem C10_witness :
    admin_login "pw" ⟨true, false⟩ .POST badDatesForm
      = ⟨⟨true, false⟩, [], .redirect "index" none⟩ ∧
    admin_login "pw" ⟨true, false⟩ .POST badDatesForm
      = admin_login "other" ⟨true, false⟩ .GET emptyForm :=
  C10_admin_login_short_circuit "pw" "other" ⟨true, false⟩ .POST .GET
    badDatesForm emptyForm rfl

end App
